import Mathlib

set_option linter.unusedVariables false

/-!
Verification of the VeoMaker backend (index.js): preflight advisor,
provider-response resolver, storage backend, job store and the
asynchronous generation orchestrator, embedded shallowly in Lean.
JavaScript strings are modelled as Lean `String`s (lists of code points),
JS truthiness of possibly-missing strings as `jsTruthy` on `Option String`,
byte buffers as `List Nat`, and the in-memory maps as functions to `Option`.
-/

namespace VeoMaker

/-- Truthiness of a JS value that is either absent (`null`/`undefined`) or a
string: absent and the empty string are falsy. -/
def jsTruthy : Option String → Bool
  | none => false
  | some s => !(s == "")

/-- Model of `String.prototype.trim()`: drop whitespace from both ends. -/
def jsTrim (s : String) : String :=
  String.mk (((s.data.dropWhile Char.isWhitespace).reverse.dropWhile Char.isWhitespace).reverse)

/-- Model of `String.prototype.toLowerCase()` (ASCII range suffices here). -/
def lowerStr (s : String) : String :=
  String.mk (s.data.map Char.toLower)

/-- Whether `needle` occurs as a contiguous sublist of the character list. -/
def isSubstrList (needle : List Char) : List Char → Bool
  | [] => needle.isEmpty
  | c :: rest => needle.isPrefixOf (c :: rest) || isSubstrList needle rest

/-- Model of `hay.includes(needle)` on JS strings. -/
def hasSubstr (hay needle : String) : Bool :=
  isSubstrList needle.data hay.data

/-- Model of `s.startsWith(pre)` on JS strings. -/
def jsStartsWith (s pre : String) : Bool :=
  pre.data.isPrefixOf s.data

/-- Model of `p.split(/[.?!]\s/)`: split at each punctuation character
followed by one whitespace character, both removed, scanning left to right.
`acc` holds the (reversed) characters of the current piece. -/
def splitSentences : List Char → List Char → List String
  | [], acc => [String.mk acc.reverse]
  | c1 :: c2 :: rest, acc =>
      if (c1 = Char.ofNat 46 ∨ c1 = Char.ofNat 63 ∨ c1 = Char.ofNat 33) ∧ c2.isWhitespace then
        String.mk acc.reverse :: splitSentences rest []
      else
        splitSentences (c2 :: rest) (c1 :: acc)
  | [c], acc => [String.mk (c :: acc).reverse]

/-- Model of `p.split(',')`. -/
def splitCommaAux : List Char → List Char → List String
  | [], acc => [String.mk acc.reverse]
  | c :: rest, acc =>
      if c = Char.ofNat 44 then String.mk acc.reverse :: splitCommaAux rest []
      else splitCommaAux rest (c :: acc)

def splitComma (s : String) : List String :=
  splitCommaAux s.data []

/-- The example denylist from `createPreflightResult`. -/
def bannedWords : List String := ["terror", "bomb", "assassin", "suicide", "drugs"]

/-- The warning message pushed for a matched denylisted word. -/
def sensitiveWarning (w : String) : String :=
  "Conteúdo sensível detectado: \"" ++ w ++ "\""

/-- Advisory record returned by the preflight heuristic. -/
structure Advisory where
  summary : String
  frames : List String
  warnings : List String
  suggested_prompt : String
  estimated_time_seconds : Nat
  approved : Bool
deriving DecidableEq

/-- Embedding of `createPreflightResult(prompt, aspectRatio, resolution, quality)`
from index.js, including the dead first two assignments to `est`. -/
def createPreflightResult (prompt aspectRatio resolution quality : String) : Advisory :=
  let p := jsTrim prompt
  let summary := if p.data.length ≤ 140 then p else String.mk (p.data.take 140) ++ "..."
  let sentences := (splitSentences p.data []).filter (fun s => !(s == ""))
  let frames :=
    if 3 ≤ sentences.length then sentences.take 3
    else ((splitComma p).filter (fun s => !(s == ""))).take 3
  let frames :=
    if frames.length = 0 then [String.mk (p.data.take (min 80 p.data.length))] else frames
  let pl := lowerStr p
  let warnings := bannedWords.foldl
    (fun acc w => if hasSubstr pl w then acc ++ [sensitiveWarning w] else acc) []
  let est : Nat := 20
  let est := if hasSubstr resolution "720" then 12 else est
  let est :=
    if quality == "fast" then (if hasSubstr resolution "720" then 5 else 20)
    else (if hasSubstr resolution "1080" then 80 else 40)
  { summary := summary
    frames := frames
    warnings := warnings
    suggested_prompt := p
    estimated_time_seconds := est
    approved := warnings.length == 0 }

/-! ## Provider response resolver (index.js lines 234-253) -/

/-- One element of the provider response's `output` / `result` arrays; a field
that is absent (or JSON `null`) is `none`. -/
structure OutputElem where
  uri : Option String
  content : Option String
  contentType : Option String
deriving DecidableEq

/-- The JSON body `genResp.data` of the provider response, restricted to the
fields the resolver probes; `output`/`result` are `none` when the field is
absent or not an array. -/
structure GenData where
  output : Option (List OutputElem)
  outputUri : Option String
  result : Option (List OutputElem)
deriving DecidableEq

/-- Classification produced by the resolver chain. -/
inductive Resolution where
  | remoteUrl (u : String)
  | inlineBytesBase64 (b : String)
  | unrecognized
deriving DecidableEq

/-- The check `out0.contentType && out0.contentType.startsWith('video')`. -/
def contentTypeIsVideo (ct : Option String) : Bool :=
  jsTruthy ct && jsStartsWith (ct.getD "") "video"

/-- `genResp.data.result[0].uri` when `result` is a non-empty array. -/
def resultFirstUri (d : GenData) : Option String :=
  match d.result with
  | some (r0 :: _) => r0.uri
  | _ => none

/-- The guard `data.result && Array.isArray(data.result) && data.result[0] && data.result[0].uri`. -/
def resultFirstUriTruthy (d : GenData) : Bool :=
  jsTruthy (resultFirstUri d)

/-- Embedding of the response-shape probing of index.js lines 236-251 followed
by the `if (videoUrl) ... else if (videoBase64) ... else ...` dispatch:
`videoUrl`/`videoBase64` start as `null`, the `output[0]` probe may set one of
them, then `outputUri` and `result[0].uri` are probed only when `videoUrl` is
still falsy. -/
def resolveProviderResponse (data : Option GenData) : Resolution :=
  match data with
  | none => .unrecognized
  | some d =>
    let pair : Option String × Option String :=
      match d.output with
      | some (out0 :: _) =>
        if jsTruthy out0.uri then (out0.uri, none)
        else if jsTruthy out0.content && contentTypeIsVideo out0.contentType then
          (none, out0.content)
        else (none, none)
      | _ => (none, none)
    let videoUrl := pair.1
    let videoBase64 := pair.2
    let videoUrl := if !(jsTruthy videoUrl) && jsTruthy d.outputUri then d.outputUri else videoUrl
    let videoUrl :=
      if !(jsTruthy videoUrl) && resultFirstUriTruthy d then resultFirstUri d else videoUrl
    if jsTruthy videoUrl then .remoteUrl (videoUrl.getD "")
    else if jsTruthy videoBase64 then .inlineBytesBase64 (videoBase64.getD "")
    else .unrecognized

/-! ## Byte-level helpers: UTF-8, percent-encoding, base64 -/

/-- UTF-8 encoding of a single code point, as numbers 0..255. -/
def utf8EncodeCharNat (c : Char) : List Nat :=
  let n := c.toNat
  if n < 128 then [n]
  else if n < 2048 then [192 + n / 64, 128 + n % 64]
  else if n < 65536 then [224 + n / 4096, 128 + (n / 64) % 64, 128 + n % 64]
  else [240 + n / 262144, 128 + (n / 4096) % 64, 128 + (n / 64) % 64, 128 + n % 64]

/-- Bytes of the UTF-8 encoding of a string (`Buffer.from(text, 'utf8')`). -/
def utf8Bytes (s : String) : List Nat :=
  s.data.foldr (fun c acc => utf8EncodeCharNat c ++ acc) []

/-- Uppercase hexadecimal digit for a number below 16. -/
def hexDigitChar (n : Nat) : Char :=
  if n < 10 then Char.ofNat (48 + n) else Char.ofNat (55 + n)

/-- Percent-encoding of one byte: a percent sign and two hex digits. -/
def percentEncodeByte (b : Nat) : List Char :=
  [Char.ofNat 37, hexDigitChar (b / 16), hexDigitChar (b % 16)]

/-- The characters `encodeURIComponent` leaves unescaped besides alphanumerics. -/
def uriUnreservedMarks : List Char :=
  [Char.ofNat 45, Char.ofNat 95, Char.ofNat 46, Char.ofNat 33, Char.ofNat 126,
   Char.ofNat 42, Char.ofNat 39, Char.ofNat 40, Char.ofNat 41]

/-- Model of JS `encodeURIComponent`. -/
def encodeURIComponent (s : String) : String :=
  String.mk (s.data.foldr (fun c acc =>
    (if c.isAlphanum || uriUnreservedMarks.contains c then [c]
     else (utf8EncodeCharNat c).foldr (fun b a => percentEncodeByte b ++ a) []) ++ acc) [])

/-- Value of a base64 alphabet character, `none` for characters Node's
forgiving decoder skips. -/
def base64Val (c : Char) : Option Nat :=
  let n := c.toNat
  if 65 ≤ n ∧ n ≤ 90 then some (n - 65)
  else if 97 ≤ n ∧ n ≤ 122 then some (n - 71)
  else if 48 ≤ n ∧ n ≤ 57 then some (n + 4)
  else if n = 43 then some 62
  else if n = 47 then some 63
  else none

/-- Decode groups of base64 digit values into bytes. -/
def base64Group : List Nat → List Nat
  | a :: b :: c :: d :: rest =>
      (a * 4 + b / 16) :: ((b % 16) * 16 + c / 4) :: ((c % 4) * 64 + d) :: base64Group rest
  | [a, b] => [a * 4 + b / 16]
  | [a, b, c] => [a * 4 + b / 16, (b % 16) * 16 + c / 4]
  | _ => []

/-- Model of `Buffer.from(s, 'base64')`. -/
def base64Decode (s : String) : List Nat :=
  base64Group (s.data.filterMap base64Val)

/-! ## Storage backend (index.js lines 21-41, 113-148) -/

/-- The `STORAGE_PROVIDER` switch: `'s3'` or `'local'`. -/
inductive StorageProvider where
  | s3
  | localDisk
deriving DecidableEq

/-- Configuration read from the environment at startup. -/
structure GenConfig where
  geminiKey : Option String
  callbackUrlEnv : Option String
  storageProvider : StorageProvider
  s3Bucket : String
  awsRegion : String
  appBaseUrl : String
deriving DecidableEq

/-- Public URL built for an S3 object (index.js line 126). -/
def s3PublicUrl (cfg : GenConfig) (key : String) : String :=
  "https://" ++ cfg.s3Bucket ++ ".s3." ++ cfg.awsRegion ++ ".amazonaws.com/"
    ++ encodeURIComponent key

/-- Public URL built for a locally stored file (index.js line 131). -/
def localPublicUrl (cfg : GenConfig) (name : String) : String :=
  cfg.appBaseUrl ++ "/files/" ++ encodeURIComponent name

/-- URL under which a freshly written artifact is reachable, per provider. -/
def storedPublicUrl (cfg : GenConfig) (name : String) : String :=
  match cfg.storageProvider with
  | .s3 => s3PublicUrl cfg name
  | .localDisk => localPublicUrl cfg name

/-- The local storage directory, as a map from filename to stored bytes. -/
def FileSystem := String → Option (List Nat)

/-- Embedding of `uploadBufferToStorage(buffer, filename, ...)`: writes the
buffer (to the local directory map in local mode; the S3 branch does not touch
the local directory) and returns the public URL. -/
def uploadBufferToStorage (fs : FileSystem) (buffer : List Nat) (filename : String)
    (cfg : GenConfig) : FileSystem × String :=
  match cfg.storageProvider with
  | .s3 => (fs, s3PublicUrl cfg filename)
  | .localDisk =>
    (fun n => if n = filename then some buffer else fs n, localPublicUrl cfg filename)

/-- Response of `GET /files/:filename`. -/
inductive FileResponse where
  | ok (bytes : List Nat)
  | notFoundFile
  | notAvailable
deriving DecidableEq

/-- Embedding of the `GET /files/:filename` handler (index.js lines 142-148). -/
def getFilesHandler (cfg : GenConfig) (fs : FileSystem) (filename : String) : FileResponse :=
  match cfg.storageProvider with
  | .s3 => .notAvailable
  | .localDisk =>
    match fs filename with
    | some b => .ok b
    | none => .notFoundFile

/-! ## Authentication middleware and routing (index.js lines 43-51, 98, 142, 151, 332, 339) -/

/-- Model of `auth.replace(/^Bearer\s+/i, '')`: if the header starts with
`bearer` (any case) followed by at least one whitespace character, remove the
word and the whole whitespace run; otherwise leave the header unchanged. -/
def stripBearer (auth : String) : String :=
  match auth.data with
  | c1 :: c2 :: c3 :: c4 :: c5 :: c6 :: rest =>
    if ([c1.toLower, c2.toLower, c3.toLower, c4.toLower, c5.toLower, c6.toLower]
          == ['b', 'e', 'a', 'r', 'e', 'r'])
       && (match rest with | r :: _ => r.isWhitespace | [] => false) then
      String.mk (rest.dropWhile Char.isWhitespace)
    else auth
  | _ => auth

/-- Embedding of `validatePublicToken`: `true` means the middleware calls
`next()`, `false` means it answers 401. -/
def validatePublicToken (publicToken auth : String) : Bool :=
  publicToken == "" || jsTrim (stripBearer auth) == publicToken

/-- The five routes registered on the Express app. -/
inductive Endpoint where
  | apiPreflight
  | apiGenerate
  | apiJobStatus
  | files
  | health
deriving DecidableEq

/-- Whether the route's middleware chain includes `validatePublicToken`:
`/api/preflight`, `/api/generate` and `/api/job-status/:id` do;
`/files/:filename` and `/api/health` do not. -/
def requiresToken : Endpoint → Bool
  | .apiPreflight => true
  | .apiGenerate => true
  | .apiJobStatus => true
  | .files => false
  | .health => false

/-- Outcome of the middleware stage of a request. -/
inductive AuthGate where
  | proceed
  | reject401
deriving DecidableEq

/-- Whether a request reaches its handler or is rejected by the token check. -/
def applyAuth (e : Endpoint) (publicToken auth : String) : AuthGate :=
  if requiresToken e then
    (if validatePublicToken publicToken auth then .proceed else .reject401)
  else .proceed

/-! ## Debug artifact serialization: `JSON.stringify(genResp.data || {empty: true}, null, 2)` -/

/-- An opening curly brace as a string. -/
def lbrace : String := String.singleton (Char.ofNat 123)

/-- A closing curly brace as a string. -/
def rbrace : String := String.singleton (Char.ofNat 125)

/-- Lowercase hexadecimal digit for a number below 16. -/
def hexDigitCharLower (n : Nat) : Char :=
  if n < 10 then Char.ofNat (48 + n) else Char.ofNat (87 + n)

/-- JSON string escaping as performed by `JSON.stringify`. -/
def escapeJsonChar (c : Char) : List Char :=
  if c = Char.ofNat 34 then [Char.ofNat 92, Char.ofNat 34]
  else if c = Char.ofNat 92 then [Char.ofNat 92, Char.ofNat 92]
  else if c = Char.ofNat 8 then [Char.ofNat 92, Char.ofNat 98]
  else if c = Char.ofNat 9 then [Char.ofNat 92, Char.ofNat 116]
  else if c = Char.ofNat 10 then [Char.ofNat 92, Char.ofNat 110]
  else if c = Char.ofNat 12 then [Char.ofNat 92, Char.ofNat 102]
  else if c = Char.ofNat 13 then [Char.ofNat 92, Char.ofNat 114]
  else if c.toNat < 32 then
    [Char.ofNat 92, Char.ofNat 117, Char.ofNat 48, Char.ofNat 48,
     hexDigitCharLower (c.toNat / 16), hexDigitCharLower (c.toNat % 16)]
  else [c]

def escapeJson (s : String) : String :=
  String.mk (s.data.foldr (fun c a => escapeJsonChar c ++ a) [])

/-- A JSON string literal. -/
def jsonQuote (s : String) : String := "\"" ++ escapeJson s ++ "\""

/-- One `"key": value` line at the given indentation. -/
def jsonField (pad k v : String) : String := pad ++ jsonQuote k ++ ": " ++ v

def joinCommaNl (lines : List String) : String := String.intercalate ",\n" lines

/-- Fields of one `output`/`result` element; absent fields are omitted, as
`JSON.stringify` omits `undefined` properties. -/
def outputElemFields (e : OutputElem) (pad : String) : List String :=
  (match e.uri with | some u => [jsonField pad "uri" (jsonQuote u)] | none => []) ++
  (match e.content with | some c => [jsonField pad "content" (jsonQuote c)] | none => []) ++
  (match e.contentType with
   | some ct => [jsonField pad "contentType" (jsonQuote ct)] | none => [])

def stringifyOutputElem (e : OutputElem) (outerPad innerPad : String) : String :=
  let fs := outputElemFields e innerPad
  if fs.isEmpty then lbrace ++ rbrace
  else lbrace ++ "\n" ++ joinCommaNl fs ++ "\n" ++ outerPad ++ rbrace

def stringifyElemList (l : List OutputElem) (outerPad innerPad : String) : String :=
  if l.isEmpty then "[]"
  else "[\n"
    ++ joinCommaNl (l.map (fun e => innerPad ++ stringifyOutputElem e innerPad (innerPad ++ "  ")))
    ++ "\n" ++ outerPad ++ "]"

/-- `JSON.stringify(d, null, 2)` for a provider response body. -/
def stringifyGenData (d : GenData) : String :=
  let fs :=
    (match d.output with
     | some l => [jsonField "  " "output" (stringifyElemList l "  " "    ")] | none => []) ++
    (match d.outputUri with
     | some u => [jsonField "  " "outputUri" (jsonQuote u)] | none => []) ++
    (match d.result with
     | some l => [jsonField "  " "result" (stringifyElemList l "  " "    ")] | none => [])
  if fs.isEmpty then lbrace ++ rbrace
  else lbrace ++ "\n" ++ joinCommaNl fs ++ "\n" ++ rbrace

/-- Bytes written to the debug artifact: the stringified response body, or the
stringified `\x7bempty: true\x7d` object when the body is absent. -/
def debugJsonBytes (data : Option GenData) : List Nat :=
  utf8Bytes (match data with
    | some d => stringifyGenData d
    | none => lbrace ++ "\n" ++ jsonField "  " "empty" "true" ++ "\n" ++ rbrace)

/-! ## Job records and the background generation task (index.js lines 150-329) -/

/-- The `status` field of a job record. -/
inductive Status where
  | queued
  | processing
  | done
  | failed
deriving DecidableEq

/-- The `result` object stored on a job; each optional field mirrors a
property that the code may or may not put on the object. -/
structure ResultPayload where
  url : Option String
  providerVideoUrl : Option String
  info : Option String
  debug : Option String
deriving DecidableEq

/-- A job record as stored in the `jobs` map at creation (index.js
lines 158-171); `status`, `progress`, `result` and `error` are the fields
mutated by the background task. -/
structure Job where
  id : String
  status : Status
  prompt : String
  aspectRatio : String
  resolution : String
  generateAudio : Bool
  quality : String
  preflightId : Option String
  createdAt : Nat
  progress : Nat
  result : Option ResultPayload
  error : Option String
deriving DecidableEq

/-- Outbound interactions performed by the background task. -/
inductive Effect where
  | providerCall (url prompt aspectRatio resolution : String) (generateAudio : Bool)
  | downloadAsset (url : String)
  | storageWrite (name : String) (body : List Nat)
  | callbackPost (url : String)
deriving DecidableEq

/-- Result of the provider HTTP call: either the request throws (network
error, timeout, non-2xx) or a response body arrives. -/
inductive ProviderOutcome where
  | callFails (err : String)
  | responds (data : Option GenData)
deriving DecidableEq

/-- Result of downloading the asset behind a resolved remote URL. -/
inductive DownloadOutcome where
  | ok (bytes : List Nat)
  | fails (err : String)
deriving DecidableEq

/-- The observable run of one background task: the outbound effects in order,
and every successive value of the job record, starting from the record stored
at creation and adding one snapshot per field assignment. -/
structure TaskRun where
  effects : List Effect
  snapshots : List Job
deriving DecidableEq

/-- The effects of the terminal callback: a POST when a callback URL is
configured (`req.body.callbackUrl || CALLBACK_URL`), nothing otherwise. -/
def callbackEffects (cb : Option String) : List Effect :=
  if jsTruthy cb then [.callbackPost (cb.getD "")] else []

/-- Embedding of the background task spawned by `POST /api/generate`
(index.js lines 177-323), from the job record created at admission to the
terminal state, one snapshot per assignment to the job record, for each of
the branches: simulation (no `GEMINI_API_KEY`), provider call failure,
resolved remote URL with successful or failed download, resolved inline
base64 content, and unrecognized response shape. -/
def bgTask (cfg : GenConfig) (jobId prompt aspectRatio resolution : String)
    (generateAudio : Bool) (quality : String) (preflightId : Option String)
    (createdAt : Nat) (cbBody : Option String)
    (pOut : ProviderOutcome) (dOut : DownloadOutcome) : TaskRun :=
  let j0 : Job :=
    { id := jobId, status := .queued, prompt := prompt, aspectRatio := aspectRatio,
      resolution := resolution, generateAudio := generateAudio, quality := quality,
      preflightId := preflightId, createdAt := createdAt, progress := 0,
      result := none, error := none }
  let j1 := { j0 with status := Status.processing }
  let j2 := { j1 with progress := 5 }
  let cb := if jsTruthy cbBody then cbBody else cfg.callbackUrlEnv
  if !(jsTruthy cfg.geminiKey) then
    let text := "Simulated video for prompt: " ++ prompt
      ++ "\n(You must configure GEMINI_API_KEY for real generation)"
    let filename := "sim-" ++ jobId ++ ".txt"
    let buffer := utf8Bytes text
    let publicUrl := storedPublicUrl cfg filename
    let j3 := { j2 with progress := 100 }
    let j4 := { j3 with status := Status.done }
    let j5 := { j4 with result := some (
      { url := some publicUrl, providerVideoUrl := none,
        info := some "SIMULATED_RESULT - configure GEMINI_API_KEY for real output",
        debug := none } : ResultPayload) }
    { effects := Effect.storageWrite filename buffer :: callbackEffects cb,
      snapshots := [j0, j1, j2, j3, j4, j5] }
  else
    let model := if quality == "fast" then "veo-3.1-fast-generate-001" else "veo-3.1-generate-001"
    let genUrl := "https://generativelanguage.googleapis.com/v1beta/models/"
      ++ model ++ ":generateVideo"
    let callEffect := Effect.providerCall genUrl prompt aspectRatio resolution generateAudio
    let j3 := { j2 with progress := 10 }
    match pOut with
    | .callFails err =>
      let j4 := { j3 with status := Status.failed }
      let j5 := { j4 with error := some err }
      let j6 := { j5 with progress := 100 }
      { effects := callEffect :: callbackEffects cb,
        snapshots := [j0, j1, j2, j3, j4, j5, j6] }
    | .responds data =>
      let j4 := { j3 with progress := 40 }
      match resolveProviderResponse data with
      | .remoteUrl videoUrl =>
        match dOut with
        | .ok bytes =>
          let filename := "veo-" ++ jobId ++ ".mp4"
          let publicUrl := storedPublicUrl cfg filename
          let j5 := { j4 with progress := 100 }
          let j6 := { j5 with status := Status.done }
          let j7 := { j6 with result := some (
            { url := some publicUrl, providerVideoUrl := some videoUrl,
              info := none, debug := none } : ResultPayload) }
          { effects := [callEffect, Effect.downloadAsset videoUrl,
              Effect.storageWrite filename bytes] ++ callbackEffects cb,
            snapshots := [j0, j1, j2, j3, j4, j5, j6, j7] }
        | .fails err =>
          let j5 := { j4 with status := Status.failed }
          let j6 := { j5 with error := some err }
          let j7 := { j6 with progress := 100 }
          { effects := [callEffect, Effect.downloadAsset videoUrl] ++ callbackEffects cb,
            snapshots := [j0, j1, j2, j3, j4, j5, j6, j7] }
      | .inlineBytesBase64 b64 =>
        let buf := base64Decode b64
        let filename := "veo-" ++ jobId ++ ".mp4"
        let publicUrl := storedPublicUrl cfg filename
        let j5 := { j4 with result := some (
          { url := some publicUrl, providerVideoUrl := none, info := none,
            debug := none } : ResultPayload) }
        let j6 := { j5 with progress := 100 }
        let j7 := { j6 with status := Status.done }
        { effects := [callEffect, Effect.storageWrite filename buf] ++ callbackEffects cb,
          snapshots := [j0, j1, j2, j3, j4, j5, j6, j7] }
      | .unrecognized =>
        let debugFilename := "debug-" ++ jobId ++ ".json"
        let buf := debugJsonBytes data
        let debugUrl := storedPublicUrl cfg debugFilename
        let j5 := { j4 with result := some (
          { url := none, providerVideoUrl := none, info := none,
            debug := some debugUrl } : ResultPayload) }
        let j6 := { j5 with status := Status.failed }
        let j7 := { j6 with error := some "Could not parse provider response; check debug file." }
        let j8 := { j7 with progress := 100 }
        { effects := [callEffect, Effect.storageWrite debugFilename buf] ++ callbackEffects cb,
          snapshots := [j0, j1, j2, j3, j4, j5, j6, j7, j8] }

/-! ## Job store and the remaining handlers (index.js lines 97-111, 331-336) -/

/-- An entry of the in-memory `jobs` map: either a job record or a preflight
record `\x7btype: 'preflight', createdAt, data\x7d`. -/
inductive StoreEntry where
  | jobRec (j : Job)
  | preflightRec (createdAt : Nat) (data : Advisory)
deriving DecidableEq

/-- The in-memory `jobs` object, keyed by id. -/
def JobStore := String → Option StoreEntry

/-- Response of `POST /api/preflight`. -/
inductive PreflightResponse where
  | badRequest
  | ok (preflightId : String) (data : Advisory)
deriving DecidableEq

/-- Embedding of the `POST /api/preflight` handler (index.js lines 98-111):
missing or empty prompt gives 400; otherwise the advisory is computed, stored
in the `jobs` map under a fresh `preflightId`, and returned. -/
def preflightHandler (store : JobStore) (prompt : Option String)
    (aspectRatio resolution quality : String) (newId : String) (now : Nat) :
    PreflightResponse × JobStore :=
  if !(jsTruthy prompt) then (.badRequest, store)
  else
    let result := createPreflightResult (prompt.getD "") aspectRatio resolution quality
    (.ok newId result,
     fun k => if k = newId then some (.preflightRec now result) else store k)

/-- Response of `GET /api/job-status/:id`. -/
inductive StatusResponse where
  | ok (e : StoreEntry)
  | notFound
deriving DecidableEq

/-- Embedding of the `GET /api/job-status/:id` handler (index.js
lines 332-336): 404 when the id is falsy or absent from the map, otherwise
the stored entry. -/
def jobStatusHandler (store : JobStore) (jobId : String) : StatusResponse :=
  if jobId = "" then .notFound
  else
    match store jobId with
    | some e => .ok e
    | none => .notFound

/-! ## Helper lemmas -/

/-- Pushing onto an accumulator under a filter condition is filtering then
mapping. -/
theorem foldlPushEq (l : List String) (P : String → Bool) (f : String → String)
    (acc : List String) :
    l.foldl (fun a w => if P w then a ++ [f w] else a) acc
      = acc ++ (l.filter P).map f := by
  induction l generalizing acc with
  | nil => simp
  | cons x xs ih =>
    cases h : P x with
    | true => simp [List.foldl_cons, h, ih, List.filter_cons, List.append_assoc]
    | false => simp [List.foldl_cons, h, ih, List.filter_cons]

/-- A 404 from the job-status handler means the id was falsy or absent. -/
theorem jobStatusNotFoundChar (store : JobStore) (id2 : String)
    (h : jobStatusHandler store id2 = StatusResponse.notFound) :
    id2 = "" ∨ store id2 = none := by
  unfold jobStatusHandler at h
  by_cases h2 : id2 = ""
  · exact Or.inl h2
  · rw [if_neg h2] at h
    right
    cases hs : store id2 with
    | some e => rw [hs] at h; exact absurd h (by simp)
    | none => rfl

/-- An absent value is falsy. -/
theorem jsTruthy_none : jsTruthy none = false := rfl

/-! ## Claim theorems -/

/-- Concrete provider response body whose `output[0]` carries inline video
content and no URI, while a top-level `outputUri` is also present. -/
def c1CexData : GenData :=
  { output := some [{ uri := none, content := some "QUJDRA==", contentType := some "video/mp4" }],
    outputUri := some "https://provider.example/video.mp4",
    result := none }

/-- C1 counterexample: with inline video content in `output[0]` (no URI
there) and a top-level `outputUri` present, the resolver classifies the
response as a remote URL, not as inline base64 bytes — the claimed
stop-at-first-success order does not hold. -/
theorem resolverRemoteOverInlineCex :
    resolveProviderResponse (some c1CexData)
      = Resolution.remoteUrl "https://provider.example/video.mp4"
    ∧ resolveProviderResponse (some c1CexData)
      ≠ Resolution.inlineBytesBase64 "QUJDRA==" := by
  constructor
  · rfl
  · decide

/-- C1 amended: the resolver classifies a response as inline base64 bytes
exactly when `output[0]` has no truthy URI but has truthy inline content with
a content type starting with "video", AND neither a truthy top-level
`outputUri` nor a truthy `result[0].uri` is present — the later remote-URL
probes take precedence over inline content. -/
theorem resolverInlineOnlyWhenNoUri (d : GenData) (out0 : OutputElem)
    (rest : List OutputElem)
    (h1 : d.output = some (out0 :: rest))
    (h2 : jsTruthy out0.uri = false)
    (h3 : jsTruthy out0.content = true)
    (h4 : contentTypeIsVideo out0.contentType = true)
    (h5 : jsTruthy d.outputUri = false)
    (h6 : resultFirstUriTruthy d = false) :
    resolveProviderResponse (some d)
      = Resolution.inlineBytesBase64 (out0.content.getD "") := by
  unfold resolveProviderResponse
  dsimp only
  rw [h1]
  simp [h2, h3, h4, h5, h6, jsTruthy_none]

/-- Concrete response body matching the amended C1 hypotheses. -/
def c1WitnessData : GenData :=
  { output := some [{ uri := none, content := some "QUJD", contentType := some "video/mp4" }],
    outputUri := none, result := none }

/-- Witness for the amended C1 theorem at a concrete response body. -/
theorem resolverInlineOnlyWhenNoUriWitness :
    resolveProviderResponse (some c1WitnessData) = Resolution.inlineBytesBase64 "QUJD" :=
  resolverInlineOnlyWhenNoUri c1WitnessData
    { uri := none, content := some "QUJD", contentType := some "video/mp4" } []
    rfl (by decide) (by decide) (by decide) (by decide) (by decide)

/-- C3 counterexample: a request to `GET /files/:filename` with a bearer
token that does not match the shared secret still reaches the handler —
the route carries no token middleware — contradicting the claim that every
endpoint except health rejects it with 401. -/
theorem filesEndpointNoAuthCex :
    applyAuth Endpoint.files "veomaker-public-token-12345" "Bearer wrong-token"
      = AuthGate.proceed
    ∧ validatePublicToken "veomaker-public-token-12345" "Bearer wrong-token" = false
    ∧ AuthGate.proceed ≠ AuthGate.reject401 := by
  refine ⟨rfl, by decide, by decide⟩

/-- C3 amended: every endpoint other than `/api/health` AND `/files/:filename`
rejects a non-matching bearer token with 401 before its handler runs, while
the files and health endpoints proceed regardless of the token. -/
theorem authRequiredOutsideHealthFiles (e : Endpoint) (publicToken auth : String)
    (hh : e ≠ Endpoint.health) (hf : e ≠ Endpoint.files)
    (hbad : validatePublicToken publicToken auth = false) :
    applyAuth e publicToken auth = AuthGate.reject401
    ∧ applyAuth Endpoint.files publicToken auth = AuthGate.proceed
    ∧ applyAuth Endpoint.health publicToken auth = AuthGate.proceed := by
  refine ⟨?_, by simp [applyAuth, requiresToken], by simp [applyAuth, requiresToken]⟩
  cases e <;> simp_all [applyAuth, requiresToken]

/-- Witness for the amended C3 theorem at the generate endpoint with a wrong
token. -/
theorem authRequiredOutsideHealthFilesWitness :
    applyAuth Endpoint.apiGenerate "veomaker-public-token-12345" "Bearer wrong-token"
      = AuthGate.reject401
    ∧ applyAuth Endpoint.files "veomaker-public-token-12345" "Bearer wrong-token"
      = AuthGate.proceed
    ∧ applyAuth Endpoint.health "veomaker-public-token-12345" "Bearer wrong-token"
      = AuthGate.proceed :=
  authRequiredOutsideHealthFiles Endpoint.apiGenerate "veomaker-public-token-12345"
    "Bearer wrong-token" (by decide) (by decide) (by decide)

/-- C4 counterexample: for the empty prompt the advisor's `frames` is the
one-element sequence containing the empty excerpt, not the empty sequence —
the 80-character fallback fires on the empty prompt too. -/
theorem emptyPromptFramesCex :
    (createPreflightResult "" "9:16" "720p" "fast").frames = [""]
    ∧ ([""] : List String) ≠ [] := by
  refine ⟨rfl, by decide⟩

/-- C4 amended: whenever the sentence split of the trimmed prompt yields
fewer than 3 non-empty sentences and the comma split yields no non-empty
parts, `frames` is the single excerpt of the first up-to-80 characters of the
trimmed prompt; in particular the empty prompt yields the single empty
excerpt, not an empty sequence. -/
theorem framesFallbackAmended (prompt a r q : String)
    (h1 : ((splitSentences (jsTrim prompt).data []).filter (fun s => !(s == ""))).length < 3)
    (h2 : (splitComma (jsTrim prompt)).filter (fun s => !(s == "")) = []) :
    (createPreflightResult prompt a r q).frames
      = [String.mk ((jsTrim prompt).data.take (min 80 (jsTrim prompt).data.length))]
    ∧ (createPreflightResult "" a r q).frames = [""] := by
  constructor
  · unfold createPreflightResult
    dsimp only
    rw [if_neg (Nat.not_le.mpr h1), h2]
    simp
  · rfl

/-- Witness for the amended C4 theorem at a prompt consisting of commas. -/
theorem framesFallbackAmendedWitness :
    (createPreflightResult ",," "9:16" "720p" "fast").frames = [",,"]
    ∧ (createPreflightResult "" "9:16" "720p" "fast").frames = [""] :=
  framesFallbackAmended ",," "9:16" "720p" "fast" (by decide) (by decide)

/-- C6: the estimated generation time depends only on the quality knob and on
whether the resolution string contains "720" (for fast) or "1080"
(otherwise): fast+720 gives 5, fast otherwise 20, non-fast+1080 gives 80,
non-fast otherwise 40. -/
theorem estimateLookup (prompt a resolution quality : String) :
    (createPreflightResult prompt a resolution quality).estimated_time_seconds
      = (if quality == "fast" then (if hasSubstr resolution "720" then 5 else 20)
         else (if hasSubstr resolution "1080" then 80 else 40)) := rfl

/-- C7: the advisor's warning list is exactly one warning, naming the matched
term, for each denylisted term occurring case-insensitively in the (trimmed)
prompt, in denylist order; and the advisory is approved exactly when the
warning list is empty. -/
theorem warningsAndApproval (prompt a r q : String) :
    (createPreflightResult prompt a r q).warnings
      = (bannedWords.filter (fun w => hasSubstr (lowerStr (jsTrim prompt)) w)).map
          sensitiveWarning
    ∧ ((createPreflightResult prompt a r q).approved = true
        ↔ (createPreflightResult prompt a r q).warnings = []) := by
  have hlen : ∀ ws : List String, (ws.length == 0) = true ↔ ws = [] := by
    intro ws
    cases ws <;> simp
  unfold createPreflightResult
  dsimp only
  exact ⟨(foldlPushEq _ _ _ []).trans (by simp), hlen _⟩

/-- C9: under local storage, writing a buffer through the storage backend and
then fetching it through the `GET /files/:filename` handler returns exactly
the original bytes. -/
theorem localPutGetRoundTrip (g cbe : Option String) (bucket region base : String)
    (fs : FileSystem) (buffer : List Nat) (filename : String) :
    getFilesHandler
      { geminiKey := g, callbackUrlEnv := cbe, storageProvider := .localDisk,
        s3Bucket := bucket, awsRegion := region, appBaseUrl := base }
      (uploadBufferToStorage fs buffer filename
        { geminiKey := g, callbackUrlEnv := cbe, storageProvider := .localDisk,
          s3Bucket := bucket, awsRegion := region, appBaseUrl := base }).1
      filename
      = FileResponse.ok buffer := by
  simp [getFilesHandler, uploadBufferToStorage]

/-- C10: a preflight id returned by `POST /api/preflight` is stored in the
same map as jobs, so a subsequent `GET /api/job-status/<id>` returns the
stored preflight record, and a 404 arises only for ids (with the handler's
falsy-id guard) absent from the map in either role. -/
theorem preflightStoredLookup (store : JobStore) (prompt : Option String)
    (a r q id : String) (now : Nat)
    (hp : jsTruthy prompt = true) (hid : id ≠ "") :
    (preflightHandler store prompt a r q id now).1
      = PreflightResponse.ok id (createPreflightResult (prompt.getD "") a r q)
    ∧ jobStatusHandler (preflightHandler store prompt a r q id now).2 id
      = StatusResponse.ok
          (StoreEntry.preflightRec now (createPreflightResult (prompt.getD "") a r q))
    ∧ (∀ id2 : String,
        jobStatusHandler (preflightHandler store prompt a r q id now).2 id2
          = StatusResponse.notFound
        → (id2 = "" ∨ (preflightHandler store prompt a r q id now).2 id2 = none)) := by
  refine ⟨?_, ?_, fun id2 h => jobStatusNotFoundChar _ id2 h⟩
  · simp [preflightHandler, hp]
  · simp [preflightHandler, jobStatusHandler, hp, hid]

/-- The store before any request. -/
def emptyStore : JobStore := fun _ => none

/-- Witness for the C10 theorem at a concrete preflight request. -/
theorem preflightStoredLookupWitness :
    (preflightHandler emptyStore (some "a cat") "9:16" "720p" "fast" "pf-1" 0).1
      = PreflightResponse.ok "pf-1" (createPreflightResult "a cat" "9:16" "720p" "fast")
    ∧ jobStatusHandler
        (preflightHandler emptyStore (some "a cat") "9:16" "720p" "fast" "pf-1" 0).2 "pf-1"
      = StatusResponse.ok
          (StoreEntry.preflightRec 0 (createPreflightResult "a cat" "9:16" "720p" "fast"))
    ∧ (∀ id2 : String,
        jobStatusHandler
          (preflightHandler emptyStore (some "a cat") "9:16" "720p" "fast" "pf-1" 0).2 id2
          = StatusResponse.notFound
        → (id2 = ""
           ∨ (preflightHandler emptyStore (some "a cat") "9:16" "720p" "fast" "pf-1" 0).2 id2
               = none)) :=
  preflightStoredLookup emptyStore (some "a cat") "9:16" "720p" "fast" "pf-1" 0
    (by decide) (by decide)

/-- Rank of a status in the lifecycle order: terminal states rank highest. -/
def statusRank : Status → Nat
  | .queued => 0
  | .processing => 1
  | .done => 2
  | .failed => 2

/-- C5: over every run of the background task, the successive `status` values
start at queued, are monotone in the lifecycle order queued → processing →
terminal (so no re-entry into queued or processing), never contain both done
and failed, end in a terminal state, and the successive `progress` values
never decrease. -/
theorem jobLifecycleMonotone (cfg : GenConfig) (jobId prompt aspectRatio resolution : String)
    (generateAudio : Bool) (quality : String) (preflightId : Option String)
    (createdAt : Nat) (cbBody : Option String)
    (pOut : ProviderOutcome) (dOut : DownloadOutcome) :
    let run := bgTask cfg jobId prompt aspectRatio resolution generateAudio quality
      preflightId createdAt cbBody pOut dOut
    let sts := run.snapshots.map Job.status
    sts.head? = some Status.queued
    ∧ List.Chain' (fun a b => statusRank a ≤ statusRank b) sts
    ∧ (sts.contains Status.done && sts.contains Status.failed) = false
    ∧ Option.map statusRank sts.getLast? = some 2
    ∧ List.Chain' (fun a b : Nat => a ≤ b) (run.snapshots.map Job.progress) := by
  dsimp only
  cases hkey : jsTruthy cfg.geminiKey with
  | false => simp [bgTask, hkey]; decide
  | true =>
    cases pOut with
    | callFails err => simp [bgTask, hkey]; decide
    | responds data =>
      cases hres : resolveProviderResponse data with
      | remoteUrl u =>
        cases dOut with
        | ok bytes => simp [bgTask, hkey, hres]; decide
        | fails err => simp [bgTask, hkey, hres]; decide
      | inlineBytesBase64 b => simp [bgTask, hkey, hres]; decide
      | unrecognized => simp [bgTask, hkey, hres]; decide

/-- Whether a result object consists of a debug artifact reference only. -/
def debugOnly (r : ResultPayload) : Bool :=
  r.url.isNone && r.providerVideoUrl.isNone && r.info.isNone && r.debug.isSome

/-- Configuration with a provider credential and local storage. -/
def cfgProvider : GenConfig :=
  { geminiKey := some "test-key", callbackUrlEnv := none,
    storageProvider := .localDisk, s3Bucket := "", awsRegion := "us-east-1",
    appBaseUrl := "http://localhost:3000" }

/-- A run in which the provider responds with an unrecognizable body. -/
def unrecognizedRun : TaskRun :=
  bgTask cfgProvider "job-1" "a cat" "9:16" "720p" true "fast" none 0 none
    (.responds (some { output := none, outputUri := none, result := none }))
    (.ok [])

/-- C2 counterexample: a job that terminates as failed via an unrecognized
provider response shape ends with `result` (a debug artifact reference) and
`error` both populated, so the two fields are not mutually exclusive. -/
theorem unrecognizedBothFieldsCex :
    Option.map (fun j => (j.status, j.result.isSome, j.error.isSome))
      unrecognizedRun.snapshots.getLast? = some (Status.failed, true, true) := by
  decide

/-- C2 amended: `result` and `error` are both populated only on the
unrecognized-response-shape path; any snapshot of any run with both fields
set has status failed and a `result` consisting solely of a debug artifact
reference. Elsewhere the two fields remain mutually exclusive. -/
theorem resultErrorExclusiveUnlessDebug (cfg : GenConfig)
    (jobId prompt aspectRatio resolution : String) (generateAudio : Bool)
    (quality : String) (preflightId : Option String) (createdAt : Nat)
    (cbBody : Option String) (pOut : ProviderOutcome) (dOut : DownloadOutcome)
    (j : Job)
    (hj : j ∈ (bgTask cfg jobId prompt aspectRatio resolution generateAudio quality
        preflightId createdAt cbBody pOut dOut).snapshots)
    (hr : j.result.isSome = true) (he : j.error.isSome = true) :
    j.status = Status.failed ∧ j.result.all debugOnly = true := by
  cases hkey : jsTruthy cfg.geminiKey with
  | false =>
    simp [bgTask, hkey] at hj
    rcases hj with rfl | rfl | rfl | rfl | rfl | rfl <;> simp_all [debugOnly]
  | true =>
    cases pOut with
    | callFails err =>
      simp [bgTask, hkey] at hj
      rcases hj with rfl | rfl | rfl | rfl | rfl | rfl | rfl <;> simp_all [debugOnly]
    | responds data =>
      cases hres : resolveProviderResponse data with
      | remoteUrl u =>
        cases dOut with
        | ok bytes =>
          simp [bgTask, hkey, hres] at hj
          rcases hj with rfl | rfl | rfl | rfl | rfl | rfl | rfl | rfl <;>
            simp_all [debugOnly]
        | fails err =>
          simp [bgTask, hkey, hres] at hj
          rcases hj with rfl | rfl | rfl | rfl | rfl | rfl | rfl | rfl <;>
            simp_all [debugOnly]
      | inlineBytesBase64 b =>
        simp [bgTask, hkey, hres] at hj
        rcases hj with rfl | rfl | rfl | rfl | rfl | rfl | rfl | rfl <;>
          simp_all [debugOnly]
      | unrecognized =>
        simp [bgTask, hkey, hres] at hj
        rcases hj with rfl | rfl | rfl | rfl | rfl | rfl | rfl | rfl | rfl <;>
          simp_all [debugOnly]

/-- The last snapshot of the unrecognized-shape run. -/
def c2WitnessJob : Job :=
  { id := "job-1", status := .failed, prompt := "a cat", aspectRatio := "9:16",
    resolution := "720p", generateAudio := true, quality := "fast",
    preflightId := none, createdAt := 0, progress := 100,
    result := some
      { url := none, providerVideoUrl := none, info := none,
        debug := some "http://localhost:3000/files/debug-job-1.json" },
    error := some "Could not parse provider response; check debug file." }

/-- Witness for the amended C2 theorem at the unrecognized-shape run. -/
theorem resultErrorExclusiveUnlessDebugWitness :
    c2WitnessJob.status = Status.failed ∧ c2WitnessJob.result.all debugOnly = true :=
  resultErrorExclusiveUnlessDebug cfgProvider "job-1" "a cat" "9:16" "720p" true "fast"
    none 0 none
    (.responds (some { output := none, outputUri := none, result := none }))
    (.ok []) c2WitnessJob (by decide) (by decide) (by decide)

/-- Whether an effect is a network interaction with the provider (the
generation call or the asset download). -/
def isProviderNetworkEffect : Effect → Bool
  | .providerCall _ _ _ _ _ => true
  | .downloadAsset _ => true
  | _ => false

/-- C8: with no provider credential configured, the background task performs
no provider network call, writes exactly one placeholder text artifact
through the storage backend (plus at most the callback POST), and ends with
status done, progress 100, and a result whose url is the stored artifact's
public URL and whose info field carries the simulation marker. -/
theorem simulationBranchBehavior (cfg : GenConfig)
    (jobId prompt aspectRatio resolution : String) (generateAudio : Bool)
    (quality : String) (preflightId : Option String) (createdAt : Nat)
    (cbBody : Option String) (pOut : ProviderOutcome) (dOut : DownloadOutcome)
    (hkey : jsTruthy cfg.geminiKey = false) :
    let run := bgTask cfg jobId prompt aspectRatio resolution generateAudio quality
      preflightId createdAt cbBody pOut dOut
    let filename := "sim-" ++ jobId ++ ".txt"
    run.effects
      = Effect.storageWrite filename
          (utf8Bytes ("Simulated video for prompt: " ++ prompt
            ++ "\n(You must configure GEMINI_API_KEY for real generation)"))
        :: callbackEffects (if jsTruthy cbBody then cbBody else cfg.callbackUrlEnv)
    ∧ run.effects.any isProviderNetworkEffect = false
    ∧ Option.map Job.status run.snapshots.getLast? = some Status.done
    ∧ Option.map Job.progress run.snapshots.getLast? = some 100
    ∧ Option.map Job.result run.snapshots.getLast?
        = some (some
            { url := some (storedPublicUrl cfg filename), providerVideoUrl := none,
              info := some "SIMULATED_RESULT - configure GEMINI_API_KEY for real output",
              debug := none }) := by
  dsimp only
  simp only [bgTask, hkey, Bool.not_false, if_true]
  refine ⟨?_, ?_, ?_, ?_, ?_⟩
  · trivial
  · cases hcb : jsTruthy (if jsTruthy cbBody then cbBody else cfg.callbackUrlEnv) <;>
      simp [callbackEffects, hcb, isProviderNetworkEffect]
  · trivial
  · trivial
  · trivial

/-- Configuration with no provider credential and local storage. -/
def cfgSim : GenConfig :=
  { geminiKey := none, callbackUrlEnv := none, storageProvider := .localDisk,
    s3Bucket := "", awsRegion := "us-east-1", appBaseUrl := "http://localhost:3000" }

/-- Witness for the C8 theorem at a concrete credential-less configuration. -/
theorem simulationBranchBehaviorWitness :
    let run := bgTask cfgSim "job-2" "a cat" "9:16" "720p" true "fast" none 0 none
      (.callFails "") (.ok [])
    let filename := "sim-" ++ "job-2" ++ ".txt"
    run.effects
      = Effect.storageWrite filename
          (utf8Bytes ("Simulated video for prompt: " ++ "a cat"
            ++ "\n(You must configure GEMINI_API_KEY for real generation)"))
        :: callbackEffects (if jsTruthy none then none else cfgSim.callbackUrlEnv)
    ∧ run.effects.any isProviderNetworkEffect = false
    ∧ Option.map Job.status run.snapshots.getLast? = some Status.done
    ∧ Option.map Job.progress run.snapshots.getLast? = some 100
    ∧ Option.map Job.result run.snapshots.getLast?
        = some (some
            { url := some (storedPublicUrl cfgSim filename), providerVideoUrl := none,
              info := some "SIMULATED_RESULT - configure GEMINI_API_KEY for real output",
              debug := none }) :=
  simulationBranchBehavior cfgSim "job-2" "a cat" "9:16" "720p" true "fast" none 0 none
    (.callFails "") (.ok []) rfl

end VeoMaker
